import Mathlib

/-!
Verification of the Earth–Moon Euler-integration program (`src/main.cpp`).

The program is embedded shallowly over the real numbers: `double` values
become `ℝ`, `glm::highp_dvec2` becomes `ℝ × ℝ`, and the two-element
`std::vector<Object>` (the program constructs exactly two objects, Earth
and Moon, and never resizes it) becomes a `State` holding `body0` and
`body1`, with the fixed-trip-count loops unrolled accordingly.
-/

namespace EulerIntegration

noncomputable section

/-- `glm::highp_dvec2`, a pair of doubles, modelled over the reals. -/
abbrev Vec2 := ℝ × ℝ

/-- glm dot product of 2-vectors. -/
def dot (v w : Vec2) : ℝ := v.1 * w.1 + v.2 * w.2

/-- `glm::length2`: squared Euclidean length. -/
def length2 (v : Vec2) : ℝ := dot v v

/-- `glm::length`: Euclidean length. -/
def glmLength (v : Vec2) : ℝ := Real.sqrt (dot v v)

/-- `glm::normalize`: `v / |v|`. -/
def normalize (v : Vec2) : Vec2 := (1 / glmLength v) • v

/-- `glm::distance(p, q) = length(q - p)`. -/
def glmDistance (p q : Vec2) : ℝ := glmLength (q - p)

/-- `const double delta_time = 3600.0;` -/
def delta_time : ℝ := 3600.0

/-- `const int number_steps = 24*365;` -/
def number_steps : ℕ := 24 * 365

/-- `const double gravity_constant = 6.674e-11;` -/
def gravity_constant : ℝ := 6.674e-11

/-- `struct Object` from `main.cpp`. -/
structure Object where
  name : String
  mass : ℝ
  position : Vec2
  velocity : Vec2
  force : Vec2

/-- `const std::string METHOD_NAIVE = "naive";` -/
def METHOD_NAIVE : String := "naive"

/-- `const std::string METHOD_SYMPLECTIC = "symplectic";` -/
def METHOD_SYMPLECTIC : String := "symplectic"

/-- The two integration methods the program accepts; `main` validates the
command-line token against `METHOD_NAIVE` / `METHOD_SYMPLECTIC` before the
loop starts, so inside a valid run the method is one of these two. -/
inductive Method where
  | naive
  | symplectic
deriving DecidableEq

/-- The validation at the top of `main` (lines 37–41): a token other than
`"naive"` or `"symplectic"` is rejected. -/
def methodOfString (m : String) : Option Method :=
  if m = METHOD_NAIVE then some Method.naive
  else if m = METHOD_SYMPLECTIC then some Method.symplectic
  else none

/-- The raw position-update branch of the integration loop (lines 77–88):
`vec2 new_position;` followed by `if (method == METHOD_NAIVE) ... else if
(method == METHOD_SYMPLECTIC) ...`.  The fall-through path, on which
`new_position` stays uninitialized, is modelled as `none`. -/
def newPositionRaw (method : String) (position old_velocity new_velocity : Vec2) :
    Option Vec2 :=
  if method = METHOD_NAIVE then some (position + delta_time • old_velocity)
  else if method = METHOD_SYMPLECTIC then some (position + delta_time • new_velocity)
  else none

/-- The position update once the method token has been validated. -/
def newPosition (mv : Method) (position old_velocity new_velocity : Vec2) : Vec2 :=
  match mv with
  | Method.naive => position + delta_time • old_velocity
  | Method.symplectic => position + delta_time • new_velocity

/-- Componentwise vector-by-scalar division, `glm` semantics of `v / s`. -/
def vdiv (v : Vec2) (a : ℝ) : Vec2 := (v.1 / a, v.2 / a)

/-- The body of the integration loop (lines 69–89) for one object:
`acceleration = force / mass`, `new_velocity = old_velocity + acceleration *
delta_time`, the method-dependent `new_position`, then both `velocity` and
`position` are overwritten. -/
def integrateBody (mv : Method) (b : Object) : Object :=
  let acceleration := vdiv b.force b.mass
  let old_velocity := b.velocity
  let new_velocity := old_velocity + delta_time • acceleration
  let new_pos := newPosition mv b.position old_velocity new_velocity
  { b with velocity := new_velocity, position := new_pos }

/-- The simulation state: the two-element `std::vector<Object>`. -/
structure State where
  body0 : Object
  body1 : Object

/-- The force-computation loop (lines 50–65).  With two objects the nested
`i < j` loops run exactly once, with `i = 0`, `j = 1`:
`objects[0].force = direction * force; objects[1].force = -objects[0].force;`. -/
def computeForces (s : State) : State :=
  let vector := s.body1.position - s.body0.position
  let direction := normalize vector
  let distance_sq := length2 vector
  let force := gravity_constant * (s.body0.mass * s.body1.mass) / distance_sq
  let f0 := force • direction
  { body0 := { s.body0 with force := f0 },
    body1 := { s.body1 with force := -f0 } }

/-- The integration loop (lines 68–89), iterating `i = 0` then `i = 1` and
updating each object in place. -/
def integrateAll (mv : Method) (s : State) : State :=
  let s0 : State := { s with body0 := integrateBody mv s.body0 }
  { s0 with body1 := integrateBody mv s0.body1 }

/-- The integration loop run in the opposite body order (`i = 1` then
`i = 0`); used to state order-insensitivity of the integration phase. -/
def integrateAllRev (mv : Method) (s : State) : State :=
  let s1 : State := { s with body1 := integrateBody mv s.body1 }
  { s1 with body0 := integrateBody mv s1.body0 }

/-- One iteration of the outer `for (int step = 0; ...)` loop, output left
aside: forces first (from the pre-step position snapshot), then integration. -/
def step (mv : Method) (s : State) : State := integrateAll mv (computeForces s)

/-- One output line (lines 92–95).  The structure's field order models the
tab-separated field order of the printed record. -/
structure Record where
  elapsed : ℝ
  body0_x : ℝ
  body0_y : ℝ
  body1_x : ℝ
  body1_y : ℝ
  dist : ℝ
deriving Inhabited

/-- The record printed at the end of outer-loop iteration `k`, from the
just-updated state: `step * delta_time`, both positions, and
`glm::distance(objects[0].position, objects[1].position)`. -/
def emitRecord (k : ℕ) (s : State) : Record :=
  { elapsed := (k : ℝ) * delta_time
    body0_x := s.body0.position.1
    body0_y := s.body0.position.2
    body1_x := s.body1.position.1
    body1_y := s.body1.position.2
    dist := glmDistance s.body0.position s.body1.position }

/-- The outer simulation loop: `n` remaining iterations, `k` the current
value of `step`, producing the list of printed records. -/
def run (mv : Method) : ℕ → ℕ → State → List Record
  | 0, _, _ => []
  | n + 1, k, s =>
    let s' := step mv s
    emitRecord k s' :: run mv n (k + 1) s'

/-- `{"Earth", 5.9722e24, {0.0, 0.0}, {0.0, -12.5}}`; the omitted `force`
member is value-initialized to zero. -/
def earth : Object :=
  { name := "Earth", mass := 5.9722e24, position := ((0.0 : ℝ), (0.0 : ℝ)),
    velocity := ((0.0 : ℝ), (-12.5 : ℝ)), force := ((0.0 : ℝ), (0.0 : ℝ)) }

/-- `{"Moon", 7.342e22, {384405000.0, 0.0}, {0.0, 1022.0}}`. -/
def moon : Object :=
  { name := "Moon", mass := 7.342e22, position := ((384405000.0 : ℝ), (0.0 : ℝ)),
    velocity := ((0.0 : ℝ), (1022.0 : ℝ)), force := ((0.0 : ℝ), (0.0 : ℝ)) }

/-- The initial `objects` vector. -/
def initialState : State := { body0 := earth, body1 := moon }

/-- The full stream of records printed by a valid run. -/
def output (mv : Method) : List Record := run mv number_steps 0 initialState

/-- Whole-program behaviour: from the argument list after the program name
to (exit status, printed records).  `argc != 2` and an unrecognized method
token both exit with status 1 before the loop (lines 29–41). -/
def mainProg (args : List String) : ℕ × List Record :=
  match args with
  | [method] =>
    match methodOfString method with
    | some mv => (0, run mv number_steps 0 initialState)
    | none => (1, [])
  | _ => (1, [])

/-- The state after `n` iterations of the outer loop. -/
def stepN (mv : Method) : ℕ → State → State
  | 0, s => s
  | n + 1, s => stepN mv n (step mv s)

/-- A state with the same masses and positions as `initialState` but a
different velocity for body 0; used to witness that the force phase reads
only positions and masses. -/
def kickedState : State :=
  { body0 := { earth with velocity := ((3.0 : ℝ), (4.0 : ℝ)) }, body1 := moon }

/-- Two coincident bodies: identical positions, so the pairwise displacement
is the zero vector and the force computation divides by zero. -/
def degenState : State :=
  { body0 := { name := "A", mass := 1, position := ((0 : ℝ), (0 : ℝ)),
               velocity := ((1 : ℝ), (0 : ℝ)), force := ((0 : ℝ), (0 : ℝ)) }
    body1 := { name := "B", mass := 1, position := ((0 : ℝ), (0 : ℝ)),
               velocity := ((0 : ℝ), (0 : ℝ)), force := ((0 : ℝ), (0 : ℝ)) } }

/-- The value denoted by `std::cout << x` for a `double` under the default
stream state the program never changes: `defaultfloat` with precision 6,
i.e. `x` rounded to `p = 6` significant decimal digits. -/
def printedValue (p : ℕ) (x : ℝ) : ℝ :=
  if x = 0 then 0
  else ((round (x * (10 : ℝ) ^ ((p : ℤ) - 1 - Int.log 10 |x|)) : ℤ) : ℝ) *
    (10 : ℝ) ^ (Int.log 10 |x| - ((p : ℤ) - 1))

end

/-! ### Helper lemmas about the loop -/

theorem run_length (mv : Method) (n : ℕ) :
    ∀ (k : ℕ) (s : State), (run mv n k s).length = n := by
  induction n with
  | zero => intro k s; rfl
  | succ n ih => intro k s; simp [run, ih]

theorem run_getD (mv : Method) (n : ℕ) :
    ∀ (i k : ℕ) (s : State), i < n →
      (run mv n k s).getD i default = emitRecord (k + i) (stepN mv (i + 1) s) := by
  induction n with
  | zero => intro i k s h; exact absurd h (Nat.not_lt_zero i)
  | succ n ih =>
    intro i k s h
    cases i with
    | zero => simp [run, stepN]
    | succ i =>
      have hrec := ih i (k + 1) (step mv s) (Nat.lt_of_succ_lt_succ h)
      simp only [run, List.getD_cons_succ]
      rw [hrec, show k + 1 + i = k + (i + 1) by omega]
      rfl

theorem run_headI (mv : Method) (n k : ℕ) (s : State) :
    (run mv (n + 1) k s).headI = emitRecord k (step mv s) := rfl

/-! ### The exact value of the first symplectic output field -/

theorem initial_displacement :
    moon.position - earth.position = ((384405000 : ℝ), (0 : ℝ)) := by
  rw [show moon.position = ((384405000.0 : ℝ), (0.0 : ℝ)) from rfl,
    show earth.position = ((0.0 : ℝ), (0.0 : ℝ)) from rfl, Prod.mk_sub_mk]
  norm_num

theorem initial_displacement_length :
    glmLength ((384405000 : ℝ), (0 : ℝ)) = 384405000 := by
  rw [glmLength,
    show dot ((384405000 : ℝ), (0 : ℝ)) ((384405000 : ℝ), (0 : ℝ)) =
      384405000 * 384405000 by rw [dot]; norm_num]
  exact Real.sqrt_mul_self (by norm_num)

theorem first_symplectic_body0_x :
    (output Method.symplectic).headI.body0_x = 282242926080 / 656743129 := by
  have hns : number_steps = 8759 + 1 := by norm_num [number_steps]
  rw [output, hns, run_headI]
  show (step Method.symplectic initialState).body0.position.1 = _
  simp only [step, integrateAll, integrateBody, computeForces, newPosition, vdiv,
    normalize, length2, initialState, initial_displacement, initial_displacement_length]
  simp only [Prod.smul_mk, Prod.mk_add_mk, smul_eq_mul]
  norm_num [earth, moon, gravity_constant, delta_time, dot]

theorem first_field_log :
    Int.log 10 |(282242926080 : ℝ) / 656743129| = 2 := by
  have habs : |(282242926080 : ℝ) / 656743129| = 282242926080 / 656743129 :=
    abs_of_pos (by norm_num)
  have hpos : (0 : ℝ) < |(282242926080 : ℝ) / 656743129| := by rw [habs]; norm_num
  have h1 : ((10 : ℕ) : ℝ) ^ (2 : ℤ) ≤ |(282242926080 : ℝ) / 656743129| := by
    rw [habs]; norm_num
  have h2 : |(282242926080 : ℝ) / 656743129| < ((10 : ℕ) : ℝ) ^ (3 : ℤ) := by
    rw [habs]; norm_num
  have l1 := (Int.zpow_le_iff_le_log (by norm_num) hpos).mp h1
  have l2 := (Int.lt_zpow_iff_log_lt (by norm_num) hpos).mp h2
  omega

theorem first_field_printed :
    printedValue 6 ((282242926080 : ℝ) / 656743129) = 429762 / 1000 := by
  rw [printedValue, if_neg (by norm_num : ¬((282242926080 : ℝ) / 656743129 = 0)),
    first_field_log]
  rw [show ((6 : ℕ) : ℤ) - 1 - 2 = (3 : ℤ) by norm_num,
    show (2 : ℤ) - (((6 : ℕ) : ℤ) - 1) = (-3 : ℤ) by norm_num]
  rw [show round ((282242926080 : ℝ) / 656743129 * (10 : ℝ) ^ (3 : ℤ)) = 429762 by
    rw [round_eq, Int.floor_eq_iff]; constructor <;> norm_num]
  norm_num

/-! ### Claims -/

/-- Claim C1: every step first computes
`new_velocity = old_velocity + (force / mass) * time_step`; then the naive
method sets `new_position = old_position + old_velocity * time_step`
(pre-step velocity) while the symplectic method sets
`new_position = old_position + new_velocity * time_step` (just-updated
velocity); both position and velocity are overwritten with the new values,
for both bodies of the step. -/
theorem step_velocity_position_update (mv : Method) (s : State) :
    (step mv s).body0 = integrateBody mv (computeForces s).body0 ∧
    (step mv s).body1 = integrateBody mv (computeForces s).body1 ∧
    (∀ b : Object,
      (integrateBody mv b).velocity = b.velocity + delta_time • vdiv b.force b.mass ∧
      (integrateBody Method.naive b).position = b.position + delta_time • b.velocity ∧
      (integrateBody Method.symplectic b).position =
        b.position + delta_time • (integrateBody Method.symplectic b).velocity) :=
  ⟨rfl, rfl, fun _ => ⟨rfl, rfl, rfl⟩⟩

/-- Claim C2: a valid run emits exactly `number_steps = 8760` records, one
per step; record `k` carries elapsed time `k * delta_time` and the six
fields in the fixed order of `Record`, with `dist` the Euclidean distance
between the two bodies after the step's update. -/
theorem run_emits_step_count_records (mv : Method) (k : ℕ) (hk : k < number_steps) :
    (output mv).length = number_steps ∧
    number_steps = 8760 ∧
    (output mv).getD k default = emitRecord k (stepN mv (k + 1) initialState) ∧
    ((output mv).getD k default).elapsed = (k : ℝ) * delta_time ∧
    ((output mv).getD k default).dist =
      glmDistance (stepN mv (k + 1) initialState).body0.position
        (stepN mv (k + 1) initialState).body1.position := by
  have hg := run_getD mv number_steps k 0 initialState hk
  rw [Nat.zero_add] at hg
  exact ⟨run_length mv number_steps 0 initialState, by norm_num [number_steps],
    hg, by rw [output, hg]; rfl, by rw [output, hg]; rfl⟩

/-- Witness for claim C2 at the naive method and record index 0. -/
theorem run_emits_step_count_records_witness :
    0 < number_steps ∧
    ((output Method.naive).length = number_steps ∧
     number_steps = 8760 ∧
     (output Method.naive).getD 0 default =
       emitRecord 0 (stepN Method.naive (0 + 1) initialState) ∧
     ((output Method.naive).getD 0 default).elapsed = ((0 : ℕ) : ℝ) * delta_time ∧
     ((output Method.naive).getD 0 default).dist =
       glmDistance (stepN Method.naive (0 + 1) initialState).body0.position
         (stepN Method.naive (0 + 1) initialState).body1.position) :=
  ⟨by norm_num [number_steps],
   run_emits_step_count_records Method.naive 0 (by norm_num [number_steps])⟩

/-- Claim C3: after the force-computation phase, body 1's force is exactly
the negation of body 0's force: it is assigned as `-objects[0].force`, not
recomputed. -/
theorem force_newton_third_law (s : State) :
    (computeForces s).body1.force = -(computeForces s).body0.force := rfl

/-- Claim C4 counterexample: with both bodies at the same position (zero
pairwise displacement), the step does not fail and is not atomic — body 0's
position is overwritten — and the run keeps emitting one record per step
instead of terminating with an error. -/
theorem coincident_bodies_step_proceeds :
    length2 (degenState.body1.position - degenState.body0.position) = 0 ∧
    (step Method.naive degenState).body0.position ≠ degenState.body0.position ∧
    (run Method.naive 3 0 degenState).length = 3 := by
  refine ⟨?_, ?_, run_length Method.naive 3 0 degenState⟩
  · simp [degenState, length2, dot, Prod.mk_sub_mk]
  · simp only [step, integrateAll, integrateBody, computeForces, newPosition,
      degenState, delta_time]
    simp [Prod.ext_iff, Prod.mk_add_mk, Prod.smul_mk, smul_eq_mul]
    norm_num

/-- Claim C4 (amended): the code performs no coincident-body check.  When
the two bodies coincide, the force computation divides by zero (zero force
in this exact-arithmetic model; non-finite values in C++ doubles), the step
still overwrites the state, and the run continues for its full step count. -/
theorem coincident_bodies_no_check (mv : Method) (s : State)
    (h : s.body1.position = s.body0.position) :
    (computeForces s).body0.force = ((0 : ℝ), (0 : ℝ)) ∧
    (computeForces s).body1.force = ((0 : ℝ), (0 : ℝ)) ∧
    (∀ n k, (run mv n k s).length = n) := by
  have hv : s.body1.position - s.body0.position = ((0 : ℝ), (0 : ℝ)) := by
    rw [h, sub_self]; rfl
  refine ⟨?_, ?_, fun n k => run_length mv n k s⟩ <;>
    simp [computeForces, hv, length2, dot, Prod.ext_iff]

/-- Witness for the amended claim C4 at the concrete coincident state. -/
theorem coincident_bodies_no_check_witness :
    degenState.body1.position = degenState.body0.position ∧
    ((computeForces degenState).body0.force = ((0 : ℝ), (0 : ℝ)) ∧
     (computeForces degenState).body1.force = ((0 : ℝ), (0 : ℝ)) ∧
     (∀ n k, (run Method.naive n k degenState).length = n)) :=
  ⟨rfl, coincident_bodies_no_check Method.naive degenState rfl⟩

/-- Claim C5: with a missing or unrecognized method token the program exits
with status 1 and emits no output records. -/
theorem invalid_method_rejected (args : List String)
    (h : ∀ m, args = [m] → methodOfString m = none) :
    mainProg args = (1, []) := by
  match args with
  | [] => rfl
  | [m] =>
    show (match methodOfString m with
          | some mv => ((0 : ℕ), run mv number_steps 0 initialState)
          | none => ((1 : ℕ), ([] : List Record))) = (1, [])
    rw [h m rfl]
  | a :: b :: rest => rfl

/-- Witness for claim C5 at the concrete invalid token `"euler"`. -/
theorem invalid_method_rejected_witness :
    (∀ m, (["euler"] : List String) = [m] → methodOfString m = none) ∧
    mainProg ["euler"] = (1, []) :=
  ⟨fun m hm => by cases hm; rfl,
   invalid_method_rejected ["euler"] (fun m hm => by cases hm; rfl)⟩

/-- Claim C6 counterexample: the first record of the symplectic run has
`body0_x = 282242926080 / 656743129 ≈ 429.7615210832...`, which the
program's default-precision stream prints as `429.762`; the printed value
does not round-trip to the computed value. -/
theorem output_field_not_roundtrip :
    printedValue 6 ((output Method.symplectic).headI.body0_x) ≠
      (output Method.symplectic).headI.body0_x := by
  rw [first_symplectic_body0_x, first_field_printed]
  norm_num

/-- Claim C6 (amended): the program prints every numeric field with the C++
default stream precision of 6 significant digits — it never calls
`setprecision` — so values needing more digits are truncated: the first
symplectic record's `body0_x` is exactly `282242926080 / 656743129` but
prints as `429.762`. -/
theorem output_six_significant_digits :
    (output Method.symplectic).headI.body0_x = 282242926080 / 656743129 ∧
    printedValue 6 ((output Method.symplectic).headI.body0_x) = 429762 / 1000 := by
  refine ⟨first_symplectic_body0_x, ?_⟩
  rw [first_symplectic_body0_x, first_field_printed]

/-- Claim C7: the program is a deterministic function of its inputs — two
invocations with identical arguments produce identical (exit status, output
record sequence) pairs. -/
theorem program_deterministic (args1 args2 : List String) (h : args1 = args2) :
    mainProg args1 = mainProg args2 := by rw [h]

/-- Witness for claim C7 at the concrete argument list `["naive"]`. -/
theorem program_deterministic_witness :
    (["naive"] : List String) = ["naive"] ∧ mainProg ["naive"] = mainProg ["naive"] :=
  ⟨rfl, program_deterministic ["naive"] ["naive"] rfl⟩

/-- Claim C8: the forces of a step are a function of the pre-step position
(and mass) snapshot only — two states agreeing on positions and masses get
identical forces — and, given that snapshot, the step's result does not
depend on the order in which the two bodies are integrated. -/
theorem forces_from_pre_step_snapshot (mv : Method) (s t : State)
    (hm0 : s.body0.mass = t.body0.mass) (hm1 : s.body1.mass = t.body1.mass)
    (hp0 : s.body0.position = t.body0.position)
    (hp1 : s.body1.position = t.body1.position) :
    (computeForces s).body0.force = (computeForces t).body0.force ∧
    (computeForces s).body1.force = (computeForces t).body1.force ∧
    step mv s = integrateAllRev mv (computeForces s) := by
  refine ⟨?_, ?_, rfl⟩ <;> simp [computeForces, hm0, hm1, hp0, hp1]

/-- Witness for claim C8: `initialState` and `kickedState` share masses and
positions (they differ in body 0's velocity). -/
theorem forces_from_pre_step_snapshot_witness :
    (initialState.body0.mass = kickedState.body0.mass ∧
     initialState.body1.mass = kickedState.body1.mass ∧
     initialState.body0.position = kickedState.body0.position ∧
     initialState.body1.position = kickedState.body1.position) ∧
    ((computeForces initialState).body0.force = (computeForces kickedState).body0.force ∧
     (computeForces initialState).body1.force = (computeForces kickedState).body1.force ∧
     step Method.naive initialState =
       integrateAllRev Method.naive (computeForces initialState)) :=
  ⟨⟨rfl, rfl, rfl, rfl⟩,
   forces_from_pre_step_snapshot Method.naive initialState kickedState rfl rfl rfl rfl⟩

/-- Claim C10: once the method token passes the validation before the loop,
exactly one of the two position-update branches executes, so `new_position`
is always assigned; the fall-through path that would leave it uninitialized
(`none` in the model) is unreachable. -/
theorem validated_method_branch_assigns (m : String) (mv : Method)
    (h : methodOfString m = some mv) (p ov nv : Vec2) :
    newPositionRaw m p ov nv = some (newPosition mv p ov nv) := by
  unfold methodOfString at h
  split_ifs at h with h1 h2
  · obtain rfl : Method.naive = mv := Option.some.inj h
    unfold newPositionRaw
    rw [if_pos h1]
    rfl
  · obtain rfl : Method.symplectic = mv := Option.some.inj h
    unfold newPositionRaw
    rw [if_neg h1, if_pos h2]
    rfl

/-- Witness for claim C10 at the concrete token `"naive"` and zero vectors. -/
theorem validated_method_branch_assigns_witness :
    methodOfString "naive" = some Method.naive ∧
    newPositionRaw "naive" ((0 : ℝ), (0 : ℝ)) ((0 : ℝ), (0 : ℝ)) ((0 : ℝ), (0 : ℝ)) =
      some (newPosition Method.naive ((0 : ℝ), (0 : ℝ)) ((0 : ℝ), (0 : ℝ))
        ((0 : ℝ), (0 : ℝ))) :=
  ⟨rfl, validated_method_branch_assigns "naive" Method.naive rfl _ _ _⟩

end EulerIntegration
